import Mathlib

/-!
Shallow embedding of `src/create-github-repo-api.py` (FluxStudio GitHub
repository creation script).

The script is sequential glue around three effectful collaborators:
the local environment used for credential resolution (`get_github_token`),
one HTTPS POST to the GitHub API (`create_github_repo`), and four `git`
subprocess invocations (`setup_git_remote`), orchestrated by `main`.

Each collaborator's behaviour is modelled as an oracle record describing
what the outside world answers (subprocess results, environment variables,
file system states, the HTTP response).  The Python functions themselves are
translated statement by statement.  A Python exception that the code does
not catch is modelled by `Except.error`; printed lines are accumulated as a
`List String` in print order.
-/

namespace FluxStudio

/-- JSON values as handled by the script: the bodies the GitHub API sends and
the script's own request body consist of strings, booleans, arrays and
objects (Python decodes them to `str`, `bool`, `list`, `dict`).  An object is
a key-ordered association list. -/
inductive Json where
  | str (s : String)
  | bool (b : Bool)
  | arr (elems : List Json)
  | obj (fields : List (String × Json))

/-- Python exceptions relevant to the script.  Only the ones a shallow
embedding needs to distinguish are modelled. -/
inductive PyExn where
  /-- `json.JSONDecodeError`, raised by `json.loads` on an unparseable body. -/
  | jsonDecodeError
  /-- `KeyError`, raised by `d[k]` when `k` is not a key of dict `d`. -/
  | keyError (key : String)
  /-- `TypeError`, raised e.g. by `in` or indexing on an unsupported type. -/
  | typeError
  /-- `AttributeError`, raised by `.get` on a non-dict. -/
  | attributeError
  /-- `IndexError`, raised by `l[0]` on an empty list. -/
  | indexError
  /-- `OSError` (e.g. `PermissionError`), raised by `open` on an existing but
  unreadable file. -/
  | osError
  /-- `urllib.error.URLError` (transport-level failure of `urlopen`) — note
  this is not an `HTTPError`, so `except HTTPError` does not catch it. -/
  | urlError
  deriving DecidableEq

/-- Key lookup in a decoded JSON object, first binding wins (Python dicts
cannot hold duplicate keys, so on real decoder output this is exact). -/
def lookupKey (fields : List (String × Json)) (k : String) : Option Json :=
  (fields.find? (fun kv => kv.1 == k)).map (fun kv => kv.2)

/-- Substring test on character lists: Python's `needle in hay` for `str`. -/
def containsSub (needle : List Char) : List Char → Bool
  | [] => needle.isEmpty
  | c :: rest => needle.isPrefixOf (c :: rest) || containsSub needle rest

/-- Python's `needle in hay` for strings. -/
def strContainsSub (hay needle : String) : Bool :=
  containsSub needle.toList hay.toList

/-- Python's `key in value` on a decoded JSON value: key membership for a
dict, element equality for a list, substring for a string.  `in` on a bool
raises `TypeError`. -/
def pyIn (s : String) : Json → Except PyExn Bool
  | .obj fields => .ok (fields.any (fun kv => kv.1 == s))
  | .arr elems => .ok (elems.any (fun x => match x with
      | .str t => t == s
      | _ => false))
  | .str t => .ok (strContainsSub t s)
  | .bool _ => .error .typeError

/-- Python's `d.get(k)`: `None` when absent; `.get` on a non-dict raises
`AttributeError`. -/
def pyDictGet (j : Json) (k : String) : Except PyExn (Option Json) :=
  match j with
  | .obj fields => .ok (lookupKey fields k)
  | _ => .error .attributeError

/-- Python's `d.get(k, default)`. -/
def pyDictGetD (j : Json) (k : String) (d : Json) : Except PyExn Json :=
  match j with
  | .obj fields => .ok ((lookupKey fields k).getD d)
  | _ => .error .attributeError

/-- Python's `d[k]` on a decoded JSON value: `KeyError` when the key is
absent from a dict, `TypeError` when the value is not a dict. -/
def pyIndexKey (j : Json) (k : String) : Except PyExn Json :=
  match j with
  | .obj fields =>
    match lookupKey fields k with
    | some v => .ok v
    | none => .error (.keyError k)
  | _ => .error .typeError

/-- Python's `x[0]` on a decoded JSON value: head of a list (`IndexError`
when empty), first character of a string, `KeyError` for a dict indexed by
the int key `0`, `TypeError` for a bool. -/
def pyIndexZero : Json → Except PyExn Json
  | .arr [] => .error .indexError
  | .arr (x :: _) => .ok x
  | .str s =>
    match s.toList with
    | [] => .error .indexError
    | c :: _ => .ok (.str (String.singleton c))
  | .obj _ => .error (.keyError "0")
  | .bool _ => .error .typeError

/-- Python's `x == s` where `s` is a string and `x` the result of `.get`
(possibly `None`): only an equal string compares equal. -/
def pyEqStr : Option Json → String → Bool
  | some (.str t), s => t == s
  | _, _ => false

/-- Truthiness of `os.environ.get(...)`: `None` and the empty string are
falsy, any other string is truthy. -/
def pyTruthy : Option String → Bool
  | none => false
  | some s => !(s == "")

/-- Python's `str.strip()` with no argument: drop whitespace from both
ends. -/
def pyStrip (s : String) : String :=
  String.mk (((s.toList.dropWhile Char.isWhitespace).reverse.dropWhile
    Char.isWhitespace).reverse)

/- ## Configuration (module-level constants of the script) -/

def GITHUB_USERNAME : String := "kentin0-fiz0l"

def REPO_NAME : String := "FluxStudio"

def REPO_DESCRIPTION : String :=
  "Creative design collaboration platform with real-time messaging and collaborative editing"

/- ## Credential resolver: `get_github_token` -/

/-- Outcome of the `subprocess.run(["gh", "auth", "token"], ...)` call:
either it raised (command missing, timeout — any exception, the call sits
under a bare `except`) or it completed with an exit status and stdout. -/
inductive CliResult where
  | raised
  | ran (returncode : Int) (stdout : String)

/-- State of one candidate token file as the script observes it:
`absent` (`os.path.exists` is false), `unreadable` (`os.path.exists` is true
but `open` raises), or `readable` with its contents. -/
inductive FileState where
  | absent
  | unreadable
  | readable (content : String)

/-- The local environment consulted by `get_github_token`: the `gh` CLI
invocation's outcome, the two environment variables (`none` = unset), and the
two candidate token files `~/.github_token` and `~/.config/gh/token`. -/
structure TokenEnv where
  ghCli : CliResult
  githubToken : Option String
  ghToken : Option String
  githubTokenFile : FileState
  ghConfigTokenFile : FileState

/-- Token file loop body: an absent file is skipped, an unreadable one makes
`open` raise (the loop body has no try/except), a readable one yields its
stripped contents when non-empty, else the loop continues. -/
def fileToken : FileState → Except PyExn (Option String)
  | .absent => .ok none
  | .unreadable => .error .osError
  | .readable c => .ok (if pyStrip c == "" then none else some (pyStrip c))

/-- The `for token_file in token_files` loop over the two fixed paths: an
exception from either iteration propagates, a yielded token returns, and
the loop falls through to `None` otherwise. -/
def get_token_files (e : TokenEnv) : Except PyExn (Option String) :=
  match fileToken e.githubTokenFile with
  | .error ex => .error ex
  | .ok (some t) => .ok (some t)
  | .ok none =>
    match fileToken e.ghConfigTokenFile with
    | .error ex => .error ex
    | .ok (some t) => .ok (some t)
    | .ok none => .ok none

/-- The environment-variable step
`token = os.environ.get("GITHUB_TOKEN") or os.environ.get("GH_TOKEN")`
followed by `if token: return token`, falling through to the file loop. -/
def get_token_env_files (e : TokenEnv) : Except PyExn (Option String) :=
  let token := if pyTruthy e.githubToken then e.githubToken else e.ghToken
  if pyTruthy token then .ok token else get_token_files e

/-- `get_github_token`: try the `gh` CLI (all exceptions swallowed by the
bare `except`), then the two environment variables, then the two token
files; `None` when everything fails. -/
def get_github_token (e : TokenEnv) : Except PyExn (Option String) :=
  match e.ghCli with
  | .ran rc out =>
    if rc == 0 && !(pyStrip out == "") then .ok (some (pyStrip out))
    else get_token_env_files e
  | .raised => get_token_env_files e

/- ## Repository creator: `create_github_repo` -/

/-- An HTTP response body as the script sees it: the decoded text and the
result of `json.loads` on it (`none` when the body is not valid JSON, in
which case `json.loads` raises).  `json.loads` itself is the external
standard library, so its outcome is part of the oracle. -/
structure HttpResponse where
  raw : String
  parsed : Option Json

/-- Outcome of the single `urlopen` call: a 2xx response (`urlopen` returns),
a non-2xx response (`urlopen` raises `HTTPError` carrying the body), or a
transport-level failure raising some non-`HTTPError` exception such as
`URLError`. -/
inductive HttpAttempt where
  | ok (resp : HttpResponse)
  | httpErr (resp : HttpResponse)
  | transportErr (e : PyExn)

/-- The request body the script builds from the module-level configuration
(`data = {...}` in `create_github_repo`). -/
def repoRequestData : Json :=
  .obj [("name", .str REPO_NAME),
        ("description", .str REPO_DESCRIPTION),
        ("private", .bool false),
        ("auto_init", .bool false),
        ("has_issues", .bool true),
        ("has_projects", .bool true),
        ("has_wiki", .bool false)]

/-- The request headers the script builds from the resolved token:
`Authorization` carries the token exactly as returned by
`get_github_token`, with no further trimming. -/
def requestHeaders (token : String) : List (String × String) :=
  [("Authorization", "token " ++ token),
   ("Accept", "application/vnd.github.v3+json"),
   ("Content-Type", "application/json")]

/-- `create_github_repo`: fire the single POST and interpret the outcome.
Only `HTTPError` is caught; inside that handler a bare `except` converts an
unparseable error body into `{"message": raw_body}`.  A 2xx body that fails
to parse makes `json.loads` raise out of the function, and a transport-level
failure propagates as well. -/
def create_github_repo (token : String) (attempt : HttpAttempt) :
    Except PyExn (Bool × Json) :=
  match attempt with
  | .ok resp =>
    match resp.parsed with
    | some j => .ok (true, j)
    | none => .error .jsonDecodeError
  | .httpErr resp =>
    match resp.parsed with
    | some j => .ok (false, j)
    | none => .ok (false, .obj [("message", .str resp.raw)])
  | .transportErr e => .error e

/- ## Remote publisher: `setup_git_remote` -/

/-- Outcome of one `subprocess.run(cmd, capture_output=True, text=True)`
call: either it raised (carrying the exception's text, printed via
`f"Error: \x7be\x7d"`) or it completed with an exit status, stdout and
stderr. -/
inductive CmdResult where
  | raised (msg : String)
  | ran (returncode : Int) (stdout : String) (stderr : String)

/-- Results of the four git subprocess invocations, in the order the script
runs them. -/
structure GitWorld where
  remoteRemove : CmdResult
  remoteAdd : CmdResult
  branchRename : CmdResult
  push : CmdResult

/-- The fixed command list of `setup_git_remote`. -/
def gitCommands : List (List String) :=
  [["git", "remote", "remove", "origin"],
   ["git", "remote", "add", "origin",
    "git@github.com:" ++ GITHUB_USERNAME ++ "/" ++ REPO_NAME ++ ".git"],
   ["git", "branch", "-M", "main"],
   ["git", "push", "-u", "origin", "main"]]

/-- The line printed when the push step exits non-zero. -/
def pushFailLine (stderr : String) : String :=
  "\n❌ Failed to push: " ++ stderr

/-- The `for cmd in commands` loop of `setup_git_remote`, deciding after
each step whether to continue, and returning the success flag together with
the lines printed inside the loop.  The string tests on the joined command
mirror `"remote add" in " ".join(cmd)` and friends. -/
def runGitSteps : List (List String × CmdResult) → Bool × List String
  | [] => (true, [])
  | (cmd, res) :: rest =>
    match res with
    | .ran rc _ stderr =>
      if !(rc == 0) && strContainsSub (" ".intercalate cmd) "remote add" then
        runGitSteps rest
      else if !(rc == 0) && cmd.getD 0 "" == "git" && cmd.getD 1 "" == "push" then
        (false, [pushFailLine stderr])
      else
        runGitSteps rest
    | .raised msg =>
      if strContainsSub (" ".intercalate cmd) "remote remove" then
        runGitSteps rest
      else
        (false, ["\n❌ Command failed: " ++ " ".intercalate cmd,
                 "Error: " ++ msg])

/-- `setup_git_remote`: run the four commands against the observed world. -/
def setup_git_remote (w : GitWorld) : Bool × List String :=
  runGitSteps (gitCommands.zip [w.remoteRemove, w.remoteAdd, w.branchRename, w.push])

/- ## Orchestrator: `main` -/

mutual

/-- Python's `repr` of a decoded JSON value, as `print(f"Error: \x7bresult\x7d")`
renders a dict (string escaping inside reprs is not modelled beyond quoting). -/
def pyReprJson : Json → String
  | .str s => "\x27" ++ s ++ "\x27"
  | .bool b => if b then "True" else "False"
  | .arr elems => "[" ++ pyReprJsonList elems ++ "]"
  | .obj fields => "\x7b" ++ pyReprJsonObj fields ++ "\x7d"

def pyReprJsonList : List Json → String
  | [] => ""
  | [x] => pyReprJson x
  | x :: xs => pyReprJson x ++ ", " ++ pyReprJsonList xs

def pyReprJsonObj : List (String × Json) → String
  | [] => ""
  | [kv] => "\x27" ++ kv.1 ++ "\x27: " ++ pyReprJson kv.2
  | kv :: kvs => "\x27" ++ kv.1 ++ "\x27: " ++ pyReprJson kv.2 ++ ", " ++ pyReprJsonObj kvs

end

/-- Python's `str` of a decoded JSON value as an f-string renders it: a
string renders as itself, anything else as its repr. -/
def pyStrJson : Json → String
  | .str s => s
  | j => pyReprJson j

/-- The whole observed outside world one run of the script interacts with. -/
structure World where
  tokenEnv : TokenEnv
  http : HttpAttempt
  git : GitWorld

/-- The `"=" * 50` banner line. -/
def bar50 : String :=
  String.mk (List.replicate 50 (Char.ofNat 61))

/-- Lines printed up to and including the step-1 banner. -/
def introLines : List String :=
  [bar50, "FluxStudio - GitHub Repository Creation", bar50, "",
   "1. Getting GitHub authentication token..."]

/-- Lines printed when no token is resolved, before `main` returns 1. -/
def noTokenLines : List String :=
  ["\n❌ No GitHub token found!", "",
   "Please set up authentication using one of these methods:", "",
   "Option 1: GitHub CLI",
   "  gh auth login", "",
   "Option 2: Environment Variable",
   "  export GITHUB_TOKEN=\x27your_token_here\x27", "",
   "Option 3: Create token manually",
   "  1. Go to: https://github.com/settings/tokens/new",
   "  2. Select scopes: repo (all)",
   "  3. Generate token",
   "  4. Save to ~/.github_token", "",
   "Option 4: Manual Setup",
   "  1. Go to: https://github.com/new",
   "  2. Name: FluxStudio",
   "  3. Visibility: Public",
   "  4. Don\x27t initialize",
   "  5. Run: git remote add origin git@github.com:kentin0-fiz0l/FluxStudio.git",
   "  6. Run: git push -u origin main"]

/-- The three manual fallback commands printed when the publish step fails. -/
def manualPushLines : List String :=
  ["  git remote add origin git@github.com:" ++ GITHUB_USERNAME ++ "/" ++ REPO_NAME ++ ".git",
   "  git branch -M main",
   "  git push -u origin main"]

/-- Lines printed when `setup_git_remote` returns `False`, before `main`
returns 1. -/
def pushFailBlock : List String :=
  ["\n⚠ Failed to push code automatically", "\nManual push commands:"] ++ manualPushLines

/-- The final success banner of `main`. -/
def successLines (repoUrl : String) : List String :=
  ["", bar50, "✓ GitHub Repository Setup Complete!", bar50, "",
   "Repository URL: " ++ repoUrl, "",
   "Next Steps:",
   "  1. Verify repository: " ++ repoUrl,
   "  2. Deploy to App Platform: ./deploy-complete.sh",
   "  or",
   "  2. Run: doctl apps create --spec .do/app.yaml --wait", ""]

/-- Step 3 of `main`: print the step banner, run `setup_git_remote`, and
either finish with the success banner (exit 0) or print the manual fallback
commands (exit 1). -/
def mainPublish (w : World) (acc : List String) (repoUrl : String) :
    List String × Except PyExn Int :=
  let acc := acc ++ ["\n3. Configuring git remote and pushing code..."]
  match setup_git_remote w.git with
  | (true, gitLines) =>
    (acc ++ gitLines ++ ["✓ Code pushed to GitHub"] ++ successLines repoUrl, .ok 0)
  | (false, gitLines) =>
    (acc ++ gitLines ++ pushFailBlock, .ok 1)

/-- The error-classification branch of `main` on `success == False`:
`if "errors" in result or result.get("message") == "Repository creation failed.":`
aborts; `elif "name" in result.get("errors", [\x7b\x7d])[0]:` continues with the
derived URL; `else` aborts with the message.  Short-circuiting of `or` and
the evaluation order of the Python expressions are preserved, and any
exception they raise propagates. -/
def mainApiError (w : World) (acc : List String) (result : Json) :
    List String × Except PyExn Int :=
  match pyIn "errors" result with
  | .error e => (acc, .error e)
  | .ok hasErrors =>
    if hasErrors then
      (acc ++ ["\n❌ Failed to create repository", "Error: " ++ pyStrJson result], .ok 1)
    else
      match pyDictGet result "message" with
      | .error e => (acc, .error e)
      | .ok msg =>
        if pyEqStr msg "Repository creation failed." then
          (acc ++ ["\n❌ Failed to create repository", "Error: " ++ pyStrJson result], .ok 1)
        else
          match pyDictGetD result "errors" (.arr [.obj []]) with
          | .error e => (acc, .error e)
          | .ok errs =>
            match pyIndexZero errs with
            | .error e => (acc, .error e)
            | .ok firstErr =>
              match pyIn "name" firstErr with
              | .error e => (acc, .error e)
              | .ok isNameErr =>
                if isNameErr then
                  mainPublish w
                    (acc ++ ["⚠ Repository might already exist, continuing..."])
                    ("https://github.com/" ++ GITHUB_USERNAME ++ "/" ++ REPO_NAME)
                else
                  match pyDictGetD result "message" (.str "Unknown error") with
                  | .error e => (acc, .error e)
                  | .ok msgOrDefault =>
                    (acc ++ ["\n❌ Failed to create repository",
                             "Error: " ++ pyStrJson msgOrDefault], .ok 1)

/-- `main`: resolve the token, create the repository, classify the response,
publish, and return the process exit status (`sys.exit(main())`), together
with every line printed on the way.  An uncaught Python exception is an
`Except.error`; the lines printed before it are not tracked further, since
the process dies with a traceback. -/
def main (w : World) : List String × Except PyExn Int :=
  match get_github_token w.tokenEnv with
  | .error e => (introLines, .error e)
  | .ok none => (introLines ++ noTokenLines, .ok 1)
  | .ok (some token) =>
    let acc := introLines ++ ["✓ GitHub token found", "\n2. Creating GitHub repository..."]
    match create_github_repo token w.http with
    | .error e => (acc, .error e)
    | .ok (true, result) =>
      match pyIndexKey result "html_url" with
      | .error e => (acc, .error e)
      | .ok urlVal =>
        mainPublish w (acc ++ ["✓ Repository created: " ++ pyStrJson urlVal])
          (pyStrJson urlVal)
    | .ok (false, result) => mainApiError w acc result

/- ## Predicates and concrete worlds used by the verification below -/

/-- The `gh` CLI step yields no token: the call raised, or it completed
without (exit 0 and non-blank stdout). -/
def helperNoToken (e : TokenEnv) : Prop :=
  match e.ghCli with
  | .raised => True
  | .ran rc out => ¬(rc = 0 ∧ ¬ pyStrip out = "")

/-- Neither environment variable holds a truthy (non-empty) value. -/
def envNoToken (e : TokenEnv) : Prop :=
  pyTruthy e.githubToken = false ∧ pyTruthy e.ghToken = false

/-- A token file yields no token: missing, or blank after stripping (an
unreadable file does not "fail", it raises, so it is excluded). -/
def fileNoToken : FileState → Prop
  | .absent => True
  | .unreadable => False
  | .readable c => pyStrip c = ""

/-- Exit status of a completed run, `none` when the run died on an uncaught
exception. -/
def exitCode (r : List String × Except PyExn Int) : Option Int :=
  match r.2 with
  | .ok n => some n
  | .error _ => none

/-- A token environment where the `gh` CLI answers the token directly. -/
def cliTokEnv : TokenEnv :=
  { ghCli := .ran 0 "tok", githubToken := none, ghToken := none,
    githubTokenFile := .absent, ghConfigTokenFile := .absent }

/-- A git world where all four commands succeed. -/
def allGitOk : GitWorld :=
  { remoteRemove := .ran 0 "" "", remoteAdd := .ran 0 "" "",
    branchRename := .ran 0 "" "", push := .ran 0 "" "" }

/-- The decoded 422 name-collision body of the specification:
`\x7b"message": "Validation Failed", "errors": [\x7b"field": "name",
"code": "already_exists"\x7d]\x7d`. -/
def body422 : Json :=
  .obj [("message", .str "Validation Failed"),
        ("errors", .arr [.obj [("field", .str "name"), ("code", .str "already_exists")]])]

/-- The raw text of the 422 name-collision body. -/
def raw422 : String :=
  "\x7b\"message\":\"Validation Failed\",\"errors\":[\x7b\"field\":\"name\",\"code\":\"already_exists\"\x7d]\x7d"

/-- World for the 422 name-collision run: token resolved, API answers 422
with the collision body, and every git command would succeed. -/
def c1World : World :=
  { tokenEnv := cliTokEnv,
    http := .httpErr { raw := raw422, parsed := some body422 },
    git := allGitOk }

/-- The decoded 401 body `\x7b"message": "Bad credentials"\x7d`. -/
def body401 : Json :=
  .obj [("message", .str "Bad credentials")]

/-- World for the 401 run: token resolved, API answers 401 with the
bad-credentials body. -/
def c5World : World :=
  { tokenEnv := cliTokEnv,
    http := .httpErr { raw := "\x7b\"message\":\"Bad credentials\"\x7d", parsed := some body401 },
    git := allGitOk }

/-- A git world where the `remote add` invocation itself raises (for
instance the `git` executable is missing) while every other command,
including the push, would succeed. -/
def addRaisedGit : GitWorld :=
  { remoteRemove := .ran 0 "" "",
    remoteAdd := .raised "[Errno 2] No such file or directory",
    branchRename := .ran 0 "" "", push := .ran 0 "" "" }

/-- World for a transport-level network failure of the single POST. -/
def transportFailWorld : World :=
  { tokenEnv := cliTokEnv,
    http := .transportErr .urlError,
    git := allGitOk }

/-- World for a 2xx response whose body is not JSON. -/
def okNotJsonResp : HttpResponse :=
  { raw := "not json", parsed := none }

/-- Token environment where the helper raises, both variables are unset and
the first token file exists but cannot be opened. -/
def unreadableFileEnv : TokenEnv :=
  { ghCli := .raised, githubToken := none, ghToken := none,
    githubTokenFile := .unreadable, ghConfigTokenFile := .absent }

/-- Token environment where only `GITHUB_TOKEN` is set, to a value with
trailing whitespace. -/
def newlineTokenEnv : TokenEnv :=
  { ghCli := .raised, githubToken := some "abc123\n", ghToken := none,
    githubTokenFile := .absent, ghConfigTokenFile := .absent }

/-- Token environment where only `GITHUB_TOKEN` is set, to whitespace. -/
def blankTokenEnv : TokenEnv :=
  { ghCli := .raised, githubToken := some " ", ghToken := none,
    githubTokenFile := .absent, ghConfigTokenFile := .absent }

/-- World for a 2xx success whose JSON body lacks `html_url`. -/
def noHtmlUrlWorld : World :=
  { tokenEnv := cliTokEnv,
    http := .ok { raw := "\x7b\"id\":\"1\"\x7d", parsed := some (.obj [("id", .str "1")]) },
    git := allGitOk }

/-- World for a push rejected with a permission diagnostic: token resolved,
repository created, the three preparatory git commands complete, push exits
non-zero. -/
def pushDeniedWorld : World :=
  { tokenEnv := cliTokEnv,
    http := .ok { raw := "", parsed := some (.obj [("html_url",
      .str "https://github.com/kentin0-fiz0l/FluxStudio")]) },
    git := { remoteRemove := .ran 1 "" "", remoteAdd := .ran 0 "" "",
             branchRename := .ran 0 "" "",
             push := .ran 128 "" "remote: Permission denied" } }

/- ## Shared lemmas about the credential resolver -/

theorem get_github_token_cli (e : TokenEnv) (rc : Int) (out : String)
    (h : e.ghCli = CliResult.ran rc out) (h0 : rc = 0) (hnb : ¬ pyStrip out = "") :
    get_github_token e = .ok (some (pyStrip out)) := by
  unfold get_github_token
  rw [h]
  simp [h0, hnb]

theorem get_github_token_no_cli (e : TokenEnv) (h : helperNoToken e) :
    get_github_token e = get_token_env_files e := by
  unfold helperNoToken at h
  unfold get_github_token
  cases he : e.ghCli with
  | raised => rfl
  | ran rc out =>
    rw [he] at h
    by_cases hrc : rc = 0
    · have hs : pyStrip out = "" := by tauto
      simp [hrc, hs]
    · simp [hrc]

theorem get_token_env_first (e : TokenEnv) (h : pyTruthy e.githubToken = true) :
    get_token_env_files e = .ok e.githubToken := by
  unfold get_token_env_files
  simp [h]

theorem get_token_env_second (e : TokenEnv) (h1 : pyTruthy e.githubToken = false)
    (h2 : pyTruthy e.ghToken = true) :
    get_token_env_files e = .ok e.ghToken := by
  unfold get_token_env_files
  simp [h1, h2]

theorem get_token_env_none (e : TokenEnv) (h : envNoToken e) :
    get_token_env_files e = get_token_files e := by
  obtain ⟨h1, h2⟩ := h
  unfold get_token_env_files
  simp [h1, h2]

theorem fileToken_no_token (s : FileState) (h : fileNoToken s) :
    fileToken s = .ok none := by
  cases s with
  | absent => rfl
  | unreadable => exact absurd h (by simp [fileNoToken])
  | readable c =>
    unfold fileNoToken at h
    simp [fileToken, h]

theorem get_token_files_first (e : TokenEnv) (c : String)
    (h : e.githubTokenFile = FileState.readable c) (hnb : ¬ pyStrip c = "") :
    get_token_files e = .ok (some (pyStrip c)) := by
  unfold get_token_files
  rw [h]
  simp [fileToken, hnb]

theorem get_token_files_second (e : TokenEnv) (c : String)
    (h1 : fileNoToken e.githubTokenFile)
    (h : e.ghConfigTokenFile = FileState.readable c) (hnb : ¬ pyStrip c = "") :
    get_token_files e = .ok (some (pyStrip c)) := by
  unfold get_token_files
  rw [h, fileToken_no_token _ h1]
  simp [fileToken, hnb]

theorem get_token_files_none (e : TokenEnv)
    (h1 : fileNoToken e.githubTokenFile) (h2 : fileNoToken e.ghConfigTokenFile) :
    get_token_files e = .ok none := by
  unfold get_token_files
  rw [fileToken_no_token _ h1, fileToken_no_token _ h2]

theorem fileToken_not_unreadable (s : FileState) (h : ¬ s = FileState.unreadable) :
    ∃ o, fileToken s = .ok o := by
  cases s with
  | absent => exact ⟨none, rfl⟩
  | unreadable => exact absurd rfl h
  | readable c => exact ⟨_, rfl⟩

theorem get_token_files_ok (e : TokenEnv)
    (h1 : ¬ e.githubTokenFile = FileState.unreadable)
    (h2 : ¬ e.ghConfigTokenFile = FileState.unreadable) :
    ∃ v, get_token_files e = .ok v := by
  obtain ⟨o1, ho1⟩ := fileToken_not_unreadable _ h1
  obtain ⟨o2, ho2⟩ := fileToken_not_unreadable _ h2
  unfold get_token_files
  rw [ho1]
  cases o1 with
  | some t => exact ⟨some t, rfl⟩
  | none =>
    rw [ho2]
    cases o2 with
    | some t => exact ⟨some t, rfl⟩
    | none => exact ⟨none, rfl⟩

theorem get_token_env_files_ok (e : TokenEnv)
    (h1 : ¬ e.githubTokenFile = FileState.unreadable)
    (h2 : ¬ e.ghConfigTokenFile = FileState.unreadable) :
    ∃ v, get_token_env_files e = .ok v := by
  obtain ⟨v, hv⟩ := get_token_files_ok e h1 h2
  unfold get_token_env_files
  by_cases ht : pyTruthy (if pyTruthy e.githubToken = true then e.githubToken else e.ghToken) = true
  · refine ⟨if pyTruthy e.githubToken = true then e.githubToken else e.ghToken, ?_⟩
    simp only [ht, if_true]
  · have htf : pyTruthy (if pyTruthy e.githubToken = true then e.githubToken else e.ghToken) = false := by
      simpa using ht
    exact ⟨v, by simp only [htf, Bool.false_eq_true, if_false, hv]⟩

theorem get_token_files_none_inv (e : TokenEnv) (h : get_token_files e = .ok none) :
    fileNoToken e.githubTokenFile ∧ fileNoToken e.ghConfigTokenFile := by
  unfold get_token_files at h
  cases hf1 : e.githubTokenFile with
  | unreadable => rw [hf1] at h; simp [fileToken] at h
  | absent =>
    rw [hf1] at h
    refine ⟨trivial, ?_⟩
    cases hf2 : e.ghConfigTokenFile with
    | unreadable => rw [hf2] at h; simp [fileToken] at h
    | absent => trivial
    | readable c =>
      rw [hf2] at h
      by_cases hc : pyStrip c = ""
      · exact hc
      · simp [fileToken, hc] at h
  | readable c =>
    rw [hf1] at h
    by_cases hc : pyStrip c = ""
    · simp only [fileToken, hc] at h
      refine ⟨hc, ?_⟩
      cases hf2 : e.ghConfigTokenFile with
      | unreadable => rw [hf2] at h; simp [fileToken] at h
      | absent => trivial
      | readable d =>
        rw [hf2] at h
        by_cases hd : pyStrip d = ""
        · exact hd
        · simp [fileToken, hd] at h
    · simp [fileToken, hc] at h

theorem pyTruthy_some (t : Option String) (h : pyTruthy t = true) :
    ∃ s, t = some s ∧ ¬ s = "" := by
  cases t with
  | none => simp [pyTruthy] at h
  | some s =>
    refine ⟨s, rfl, ?_⟩
    simpa [pyTruthy] using h

theorem get_token_env_files_none_inv (e : TokenEnv)
    (h : get_token_env_files e = .ok none) :
    envNoToken e ∧ fileNoToken e.githubTokenFile ∧ fileNoToken e.ghConfigTokenFile := by
  unfold get_token_env_files at h
  by_cases h1 : pyTruthy e.githubToken = true
  · obtain ⟨s, hs, hne⟩ := pyTruthy_some _ h1
    rw [hs] at h
    simp [pyTruthy, hne, h1, hs] at h
  · have h1f : pyTruthy e.githubToken = false := by simpa using h1
    by_cases h2 : pyTruthy e.ghToken = true
    · obtain ⟨s, hs, hne⟩ := pyTruthy_some _ h2
      have hts : pyTruthy (some s) = true := by simp [pyTruthy, hne]
      simp only [h1f, Bool.false_eq_true, if_false, hs, hts, if_true] at h
      exact absurd h (by simp)
    · have h2f : pyTruthy e.ghToken = false := by simpa using h2
      simp only [h1f, h2f, Bool.false_eq_true, if_false] at h
      exact ⟨⟨h1f, h2f⟩, get_token_files_none_inv e h⟩

theorem get_github_token_none_inv (e : TokenEnv)
    (h : get_github_token e = .ok none) :
    helperNoToken e ∧ envNoToken e ∧ fileNoToken e.githubTokenFile ∧
      fileNoToken e.ghConfigTokenFile := by
  unfold get_github_token at h
  cases he : e.ghCli with
  | raised =>
    rw [he] at h
    refine ⟨by simp [helperNoToken, he], get_token_env_files_none_inv e h⟩
  | ran rc out =>
    rw [he] at h
    by_cases hcond : (rc == 0 && !(pyStrip out == "")) = true
    · simp only [hcond, if_true] at h
      simp at h
    · have hf : (rc == 0 && !(pyStrip out == "")) = false := by simpa using hcond
      simp only [hf, Bool.false_eq_true, if_false] at h
      refine ⟨?_, get_token_env_files_none_inv e h⟩
      unfold helperNoToken
      rw [he]
      intro ⟨hrc, hnb⟩
      simp [hrc, hnb] at hf

/- ## Shared lemmas about the remote publisher -/

theorem setup_git_all_ran (rem : CmdResult) (rcA oA sA rcB oB sB oP sP : _) :
    setup_git_remote
      { remoteRemove := rem, remoteAdd := .ran rcA oA sA,
        branchRename := .ran rcB oB sB, push := .ran 0 oP sP } = (true, []) := by
  cases rem with
  | raised msg =>
    cases h2 : (rcA == 0) <;> cases h3 : (rcB == 0) <;>
      simp only [setup_git_remote, gitCommands, runGitSteps, h2, h3] <;> rfl
  | ran rcR oR sR =>
    cases h1 : (rcR == 0) <;> cases h2 : (rcA == 0) <;> cases h3 : (rcB == 0) <;>
      simp only [setup_git_remote, gitCommands, runGitSteps, h1, h2, h3] <;> rfl

theorem setup_git_push_nonzero (rem : CmdResult) (rcA oA sA rcB oB sB rcP oP serr : _)
    (hP : ¬ rcP = (0 : Int)) :
    setup_git_remote
      { remoteRemove := rem, remoteAdd := .ran rcA oA sA,
        branchRename := .ran rcB oB sB, push := .ran rcP oP serr } =
      (false, [pushFailLine serr]) := by
  have hPf : (rcP == (0 : Int)) = false := by simpa using hP
  cases rem with
  | raised msg =>
    cases h2 : (rcA == 0) <;> cases h3 : (rcB == 0) <;>
      simp only [setup_git_remote, gitCommands, runGitSteps, h2, h3, hPf] <;> rfl
  | ran rcR oR sR =>
    cases h1 : (rcR == 0) <;> cases h2 : (rcA == 0) <;> cases h3 : (rcB == 0) <;>
      simp only [setup_git_remote, gitCommands, runGitSteps, h1, h2, h3, hPf] <;> rfl

theorem setup_git_add_raised (rem : CmdResult) (msg : String) (bRes pRes : CmdResult) :
    setup_git_remote
      { remoteRemove := rem, remoteAdd := .raised msg,
        branchRename := bRes, push := pRes } =
      (false,
       ["\n❌ Command failed: git remote add origin git@github.com:kentin0-fiz0l/FluxStudio.git",
        "Error: " ++ msg]) := by
  cases rem with
  | raised m => rfl
  | ran rcR oR sR =>
    cases h1 : (rcR == 0) <;>
      simp only [setup_git_remote, gitCommands, runGitSteps, h1] <;> rfl

theorem setup_git_branch_raised (rem : CmdResult) (rcA oA sA : _) (msg : String)
    (pRes : CmdResult) :
    setup_git_remote
      { remoteRemove := rem, remoteAdd := .ran rcA oA sA,
        branchRename := .raised msg, push := pRes } =
      (false, ["\n❌ Command failed: git branch -M main", "Error: " ++ msg]) := by
  cases rem with
  | raised m =>
    cases h2 : (rcA == 0) <;>
      simp only [setup_git_remote, gitCommands, runGitSteps, h2] <;> rfl
  | ran rcR oR sR =>
    cases h1 : (rcR == 0) <;> cases h2 : (rcA == 0) <;>
      simp only [setup_git_remote, gitCommands, runGitSteps, h1, h2] <;> rfl

/- ## Shared lemmas about the orchestrator -/

theorem lookupKey_none (fields : List (String × Json)) (k : String)
    (h : fields.any (fun kv => kv.1 == k) = false) : lookupKey fields k = none := by
  unfold lookupKey
  rw [List.find?_eq_none.mpr]
  · rfl
  · intro kv hkv
    have := List.any_eq_false.mp h kv hkv
    simpa using this

/-- On an error response decoded to any JSON object, `main` always returns
exit status 1: the branch printing "Repository might already exist" is
unreachable, since its guard is evaluated only when `result` has no
`errors` key, in which case the default `[\x7b\x7d][0]` has no `name` key
either. -/
theorem mainApiError_obj (w : World) (acc : List String)
    (fields : List (String × Json)) :
    (mainApiError w acc (Json.obj fields)).2 = Except.ok 1 := by
  unfold mainApiError
  simp only [pyIn, pyDictGet, pyDictGetD]
  cases hE : fields.any (fun kv => kv.1 == "errors") with
  | true => simp [hE]
  | false =>
    have hN : lookupKey fields "errors" = none := lookupKey_none fields "errors" hE
    cases hM : pyEqStr (lookupKey fields "message") "Repository creation failed." <;>
      simp [hE, hM, hN, pyIndexZero, pyIn]

/- ## Claims -/

/-- Claim C1 (code bug): the spec requires a 422 name-collision body
`\x7b"message":"Validation Failed","errors":[...already_exists...]\x7d` to be
treated as AlreadyExists and the run to proceed to publish.  The code takes
`if "errors" in result or ...` first, which is true for every body carrying
an `errors` array, so `main` prints the failure banner and returns 1 even
though every git command would succeed — the already-exists `elif` is dead
code.  This theorem evaluates the run at the failing input. -/
theorem already_exists_response_aborts :
    (main c1World).2 = Except.ok 1 ∧
    "\n❌ Failed to create repository" ∈ (main c1World).1 :=
  ⟨rfl, by decide⟩

/-- Claim C2: the resolver tries the helper command, then `GITHUB_TOKEN`,
then `GH_TOKEN`, then the two token files in order, stopping at the first
success; a helper success determines the result with every other source
left arbitrary, and an `ok none` result implies every source failed. -/
theorem token_resolution_order (e : TokenEnv) :
    (∀ (rc : Int) (out : String), e.ghCli = CliResult.ran rc out → rc = 0 →
        ¬ pyStrip out = "" → get_github_token e = .ok (some (pyStrip out)))
  ∧ (helperNoToken e → pyTruthy e.githubToken = true →
        get_github_token e = .ok e.githubToken)
  ∧ (helperNoToken e → pyTruthy e.githubToken = false → pyTruthy e.ghToken = true →
        get_github_token e = .ok e.ghToken)
  ∧ (helperNoToken e → envNoToken e →
      ∀ c, e.githubTokenFile = FileState.readable c → ¬ pyStrip c = "" →
        get_github_token e = .ok (some (pyStrip c)))
  ∧ (helperNoToken e → envNoToken e → fileNoToken e.githubTokenFile →
      ∀ c, e.ghConfigTokenFile = FileState.readable c → ¬ pyStrip c = "" →
        get_github_token e = .ok (some (pyStrip c)))
  ∧ (get_github_token e = .ok none →
        helperNoToken e ∧ envNoToken e ∧ fileNoToken e.githubTokenFile ∧
          fileNoToken e.ghConfigTokenFile) := by
  refine ⟨?_, ?_, ?_, ?_, ?_, ?_⟩
  · intro rc out h h0 hnb
    exact get_github_token_cli e rc out h h0 hnb
  · intro hH hT
    rw [get_github_token_no_cli e hH, get_token_env_first e hT]
  · intro hH h1 h2
    rw [get_github_token_no_cli e hH, get_token_env_second e h1 h2]
  · intro hH hE c hc hnb
    rw [get_github_token_no_cli e hH, get_token_env_none e hE,
      get_token_files_first e c hc hnb]
  · intro hH hE h1 c hc hnb
    rw [get_github_token_no_cli e hH, get_token_env_none e hE,
      get_token_files_second e c h1 hc hnb]
  · exact get_github_token_none_inv e

/-- Witness for C2: a helper that exits 0 with stdout `"tok"` resolves to
`"tok"` with the environment and files untouched. -/
theorem token_resolution_order_check :
    get_github_token cliTokEnv = .ok (some "tok") :=
  (token_resolution_order cliTokEnv).1 0 "tok" rfl rfl (by decide)

/-- Counterexample for C3: the claim says a raised exception in the
remote-add step is ignored like a non-zero exit status; in the code only the
remote-remove step's exceptions are swallowed, so a raised remote-add (e.g.
missing executable) aborts publish even though the push would succeed. -/
theorem publish_add_exception_not_ignored :
    setup_git_remote addRaisedGit =
      (false,
       ["\n❌ Command failed: git remote add origin git@github.com:kentin0-fiz0l/FluxStudio.git",
        "Error: [Errno 2] No such file or directory"]) := rfl

/-- Claim C3 (amended): non-zero exit statuses of the remove, add and
rename steps are non-fatal and the remove step's outcome is ignored
unconditionally, but a raised exception in the remote-add or branch-rename
step aborts publish; the push step fails with its stderr diagnostic. -/
theorem publish_failure_policy :
    (∀ (rem : CmdResult) (rcA : Int) (oA sA : String) (rcB : Int) (oB sB oP sP : String),
        setup_git_remote
          { remoteRemove := rem, remoteAdd := .ran rcA oA sA,
            branchRename := .ran rcB oB sB, push := .ran 0 oP sP } = (true, []))
  ∧ (∀ (rem : CmdResult) (rcA : Int) (oA sA : String) (rcB : Int) (oB sB : String)
        (rcP : Int) (oP serr : String), ¬ rcP = 0 →
        setup_git_remote
          { remoteRemove := rem, remoteAdd := .ran rcA oA sA,
            branchRename := .ran rcB oB sB, push := .ran rcP oP serr } =
          (false, [pushFailLine serr]))
  ∧ (∀ (rem : CmdResult) (msg : String) (bRes pRes : CmdResult),
        setup_git_remote
          { remoteRemove := rem, remoteAdd := .raised msg,
            branchRename := bRes, push := pRes } =
          (false,
           ["\n❌ Command failed: git remote add origin git@github.com:kentin0-fiz0l/FluxStudio.git",
            "Error: " ++ msg]))
  ∧ (∀ (rem : CmdResult) (rcA : Int) (oA sA msg : String) (pRes : CmdResult),
        setup_git_remote
          { remoteRemove := rem, remoteAdd := .ran rcA oA sA,
            branchRename := .raised msg, push := pRes } =
          (false, ["\n❌ Command failed: git branch -M main", "Error: " ++ msg])) :=
  ⟨fun rem rcA oA sA rcB oB sB oP sP =>
      setup_git_all_ran rem rcA oA sA rcB oB sB oP sP,
   fun rem rcA oA sA rcB oB sB rcP oP serr hP =>
      setup_git_push_nonzero rem rcA oA sA rcB oB sB rcP oP serr hP,
   fun rem msg bRes pRes => setup_git_add_raised rem msg bRes pRes,
   fun rem rcA oA sA msg pRes => setup_git_branch_raised rem rcA oA sA msg pRes⟩

/-- Witness for C3 (amended): non-zero remove and add exits with a clean
push still succeed. -/
theorem publish_failure_policy_check :
    setup_git_remote
      { remoteRemove := CmdResult.ran 1 "" "fatal: no such remote",
        remoteAdd := CmdResult.ran 3 "" "error: remote origin already exists",
        branchRename := CmdResult.ran 0 "" "",
        push := CmdResult.ran 0 "" "" } = (true, []) :=
  publish_failure_policy.1 (CmdResult.ran 1 "" "fatal: no such remote")
    3 "" "error: remote origin already exists" 0 "" "" "" ""

/-- Claim C4: whenever the run reaches the push step and the push command
exits non-zero, the process exit status is 1 and the console output holds
the push diagnostic line (carrying the command stderr) and the three exact
manual fallback commands. -/
theorem push_failure_exit_and_manual_commands (w : World) (tok : String)
    (resp : HttpResponse) (fields : List (String × Json)) (u : Json)
    (rem : CmdResult) (rcA : Int) (oA sA : String) (rcB : Int) (oB sB : String)
    (rcP : Int) (oP serr : String)
    (hTok : get_github_token w.tokenEnv = .ok (some tok))
    (hHttp : w.http = HttpAttempt.ok resp)
    (hParsed : resp.parsed = some (Json.obj fields))
    (hUrl : lookupKey fields "html_url" = some u)
    (hGit : w.git =
      GitWorld.mk rem (.ran rcA oA sA) (.ran rcB oB sB) (.ran rcP oP serr))
    (hP : ¬ rcP = 0) :
    (main w).2 = Except.ok 1 ∧
    pushFailLine serr ∈ (main w).1 ∧
    "  git remote add origin git@github.com:kentin0-fiz0l/FluxStudio.git" ∈ (main w).1 ∧
    "  git branch -M main" ∈ (main w).1 ∧
    "  git push -u origin main" ∈ (main w).1 := by
  have hsetup := setup_git_push_nonzero rem rcA oA sA rcB oB sB rcP oP serr hP
  simp only [main, hTok, hHttp, create_github_repo, hParsed, pyIndexKey, hUrl,
    mainPublish, hGit, hsetup, pushFailBlock, manualPushLines]
  simp [GITHUB_USERNAME, REPO_NAME]

/-- Witness for C4: a push rejected with `remote: Permission denied` after a
successful creation yields exit status 1 with the diagnostic and the three
manual commands printed. -/
theorem push_failure_exit_and_manual_commands_check :
    (main pushDeniedWorld).2 = Except.ok 1 ∧
    pushFailLine "remote: Permission denied" ∈ (main pushDeniedWorld).1 ∧
    "  git remote add origin git@github.com:kentin0-fiz0l/FluxStudio.git" ∈ (main pushDeniedWorld).1 ∧
    "  git branch -M main" ∈ (main pushDeniedWorld).1 ∧
    "  git push -u origin main" ∈ (main pushDeniedWorld).1 :=
  push_failure_exit_and_manual_commands pushDeniedWorld "tok"
    { raw := "", parsed := some (.obj [("html_url",
        .str "https://github.com/kentin0-fiz0l/FluxStudio")]) }
    [("html_url", .str "https://github.com/kentin0-fiz0l/FluxStudio")]
    (.str "https://github.com/kentin0-fiz0l/FluxStudio")
    (CmdResult.ran 1 "" "") 0 "" "" 0 "" "" 128 "" "remote: Permission denied"
    rfl rfl rfl rfl rfl (by decide)

/-- Claim C5: an HTTP error response is returned as `(False, data)` where
`data` is the parsed JSON body when it parses (so the message is the parsed
error message) and `\x7b"message": raw\x7d` otherwise, and on any error body
decoded to a JSON object `main` exits 1; in particular the 401
bad-credentials body yields the message `Bad credentials` and exit 1. -/
theorem api_error_failed_message_exit :
    (∀ (token : String) (resp : HttpResponse) (j : Json), resp.parsed = some j →
        create_github_repo token (HttpAttempt.httpErr resp) = .ok (false, j))
  ∧ (∀ (token : String) (resp : HttpResponse), resp.parsed = none →
        create_github_repo token (HttpAttempt.httpErr resp) =
          .ok (false, Json.obj [("message", Json.str resp.raw)]))
  ∧ (∀ (w : World) (tok : String) (resp : HttpResponse) (fields : List (String × Json)),
        get_github_token w.tokenEnv = .ok (some tok) →
        w.http = HttpAttempt.httpErr resp →
        resp.parsed = some (Json.obj fields) →
        (main w).2 = Except.ok 1)
  ∧ (create_github_repo "tok" c5World.http = .ok (false, body401)
      ∧ lookupKey [("message", Json.str "Bad credentials")] "message" =
          some (Json.str "Bad credentials")
      ∧ (main c5World).2 = Except.ok 1) := by
  refine ⟨?_, ?_, ?_, rfl, rfl, rfl⟩
  · intro token resp j h
    simp only [create_github_repo, h]
  · intro token resp h
    simp only [create_github_repo, h]
  · intro w tok resp fields hTok hHttp hParsed
    simp only [main, hTok, hHttp, create_github_repo, hParsed]
    exact mainApiError_obj w _ fields

/-- Witness for C5: the 401 run exits 1. -/
theorem api_error_failed_message_exit_check :
    (main c5World).2 = Except.ok 1 :=
  api_error_failed_message_exit.2.2.1 c5World "tok"
    { raw := "\x7b\"message\":\"Bad credentials\"\x7d", parsed := some body401 }
    [("message", Json.str "Bad credentials")] rfl rfl rfl

/-- Counterexample for C6: a 2xx response whose body is not JSON does not
produce a `(False, \x7b"message": raw\x7d)` outcome; `json.loads` raises and —
since only `HTTPError` is caught — the decode error propagates out of
`create_github_repo`. -/
theorem success_parse_error_propagates :
    create_github_repo "tok" (HttpAttempt.ok okNotJsonResp) =
        .error PyExn.jsonDecodeError ∧
    ¬ create_github_repo "tok" (HttpAttempt.ok okNotJsonResp) =
        .ok (false, Json.obj [("message", Json.str "not json")]) :=
  ⟨rfl, fun h => Except.noConfusion h⟩

/-- Claim C6 (amended): only for an HTTP *error* response does an
unparseable body degrade to `(False, \x7b"message": raw\x7d)`; for a 2xx
response an unparseable body raises an uncaught JSON decode error. -/
theorem parse_failure_policy (token raw : String) :
    create_github_repo token (HttpAttempt.httpErr { raw := raw, parsed := none }) =
      .ok (false, Json.obj [("message", Json.str raw)])
  ∧ create_github_repo token (HttpAttempt.ok { raw := raw, parsed := none }) =
      .error PyExn.jsonDecodeError :=
  ⟨rfl, rfl⟩

/-- Witness for C6 (amended) at a concrete body. -/
theorem parse_failure_policy_check :
    create_github_repo "tok" (HttpAttempt.httpErr { raw := "oops", parsed := none }) =
      .ok (false, Json.obj [("message", Json.str "oops")]) :=
  (parse_failure_policy "tok" "oops").1

/-- Counterexample for C7: a transport-level failure (a non-`HTTPError`
exception from `urlopen`, e.g. `URLError` on connection refused) is not
converted into a `Failed` outcome with an exit code; it escapes
`create_github_repo` and `main` uncaught. -/
theorem transport_error_crashes :
    (main transportFailWorld).2 = Except.error PyExn.urlError ∧
    exitCode (main transportFailWorld) = none :=
  ⟨rfl, rfl⟩

/-- Claim C7 (amended): a transport-level failure of the single request
propagates as an uncaught exception through `create_github_repo` and
`main`; only `HTTPError` responses are converted into the `(False, data)`
outcome. -/
theorem transport_error_propagates (w : World) (tok : String) (ex : PyExn)
    (hTok : get_github_token w.tokenEnv = .ok (some tok))
    (hHttp : w.http = HttpAttempt.transportErr ex) :
    create_github_repo tok w.http = .error ex ∧
    (main w).2 = Except.error ex := by
  constructor
  · rw [hHttp]
    rfl
  · simp only [main, hTok, hHttp, create_github_repo]

/-- Witness for C7 (amended) at the concrete transport-failure world. -/
theorem transport_error_propagates_check :
    create_github_repo "tok" transportFailWorld.http = .error PyExn.urlError ∧
    (main transportFailWorld).2 = Except.error PyExn.urlError :=
  transport_error_propagates transportFailWorld "tok" PyExn.urlError rfl rfl

/-- Counterexample for C8: an existing but unreadable first token file (with
the helper raising and both variables unset) makes `get_github_token` raise
`OSError` instead of degrading to the next source. -/
theorem unreadable_token_file_raises :
    get_github_token unreadableFileEnv = Except.error PyExn.osError := rfl

/-- Claim C8 (amended): the resolver swallows every helper exception and
treats expected absence (missing command, unset or empty variables, missing
files) as "try next source", returning `ok` whenever no consulted token
file is unreadable; but an error opening an existing token file
propagates. -/
theorem resolver_exception_policy :
    (∀ e : TokenEnv, e.ghCli = CliResult.raised →
        get_github_token e = get_token_env_files e)
  ∧ (∀ e : TokenEnv, helperNoToken e → envNoToken e →
        e.githubTokenFile = FileState.absent → e.ghConfigTokenFile = FileState.absent →
        get_github_token e = .ok none)
  ∧ (∀ e : TokenEnv, ¬ e.githubTokenFile = FileState.unreadable →
        ¬ e.ghConfigTokenFile = FileState.unreadable →
        ∃ v, get_github_token e = .ok v) := by
  refine ⟨?_, ?_, ?_⟩
  · intro e h
    unfold get_github_token
    rw [h]
  · intro e hH hE hf1 hf2
    rw [get_github_token_no_cli e hH, get_token_env_none e hE,
      get_token_files_none e (by rw [hf1]; trivial) (by rw [hf2]; trivial)]
  · intro e h1 h2
    cases hc : e.ghCli with
    | raised =>
      unfold get_github_token
      rw [hc]
      exact get_token_env_files_ok e h1 h2
    | ran rc out =>
      unfold get_github_token
      rw [hc]
      by_cases hcond : (rc == 0 && !(pyStrip out == "")) = true
      · exact ⟨some (pyStrip out), by simp [hcond]⟩
      · have hf : (rc == 0 && !(pyStrip out == "")) = false := by simpa using hcond
        obtain ⟨v, hv⟩ := get_token_env_files_ok e h1 h2
        exact ⟨v, by simp [hf, hv]⟩

/-- Witness for C8 (amended): all sources absent resolve to `ok none`
without raising. -/
theorem resolver_exception_policy_check :
    get_github_token
      { ghCli := CliResult.raised, githubToken := none, ghToken := none,
        githubTokenFile := FileState.absent, ghConfigTokenFile := FileState.absent } =
      .ok none :=
  resolver_exception_policy.2.1
    { ghCli := CliResult.raised, githubToken := none, ghToken := none,
      githubTokenFile := FileState.absent, ghConfigTokenFile := FileState.absent }
    trivial ⟨rfl, rfl⟩ rfl rfl

/-- Claim C9: a 2xx success whose JSON object body lacks `html_url` makes
`main` die on an uncaught `KeyError` from `result["html_url"]` instead of
reaching any defined exit path. -/
theorem missing_html_url_keyerror (w : World) (tok : String) (resp : HttpResponse)
    (fields : List (String × Json))
    (hTok : get_github_token w.tokenEnv = .ok (some tok))
    (hHttp : w.http = HttpAttempt.ok resp)
    (hParsed : resp.parsed = some (Json.obj fields))
    (hNo : lookupKey fields "html_url" = none) :
    (main w).2 = Except.error (PyExn.keyError "html_url") := by
  simp only [main, hTok, hHttp, create_github_repo, hParsed, pyIndexKey, hNo]

/-- Witness for C9 at a body holding only an `id` field. -/
theorem missing_html_url_keyerror_check :
    (main noHtmlUrlWorld).2 = Except.error (PyExn.keyError "html_url") :=
  missing_html_url_keyerror noHtmlUrlWorld "tok"
    { raw := "\x7b\"id\":\"1\"\x7d", parsed := some (.obj [("id", .str "1")]) }
    [("id", .str "1")] rfl rfl rfl rfl

/-- Claim C10: only the helper stdout and token-file contents are stripped;
a token from `GITHUB_TOKEN` or `GH_TOKEN` is returned verbatim (so
`"abc123\n"` and the whitespace-only `" "` are accepted untrimmed) and is
spliced as-is into the `Authorization` header value. -/
theorem env_token_untrimmed :
    (∀ (e : TokenEnv) (s : String), helperNoToken e → e.githubToken = some s →
        ¬ s = "" → get_github_token e = .ok (some s))
  ∧ (get_github_token newlineTokenEnv = .ok (some "abc123\n") ∧
      ¬ pyStrip "abc123\n" = "abc123\n")
  ∧ get_github_token blankTokenEnv = .ok (some " ")
  ∧ (∀ t : String, ("Authorization", "token " ++ t) ∈ requestHeaders t)
  ∧ (∀ (e : TokenEnv) (rc : Int) (out : String), e.ghCli = CliResult.ran rc out →
        rc = 0 → ¬ pyStrip out = "" → get_github_token e = .ok (some (pyStrip out)))
  ∧ (∀ (e : TokenEnv) (c : String), helperNoToken e → envNoToken e →
        e.githubTokenFile = FileState.readable c → ¬ pyStrip c = "" →
        get_github_token e = .ok (some (pyStrip c))) := by
  refine ⟨?_, ⟨rfl, by decide⟩, rfl, ?_, ?_, ?_⟩
  · intro e s hH hs hne
    have ht : pyTruthy e.githubToken = true := by simp [hs, pyTruthy, hne]
    rw [get_github_token_no_cli e hH, get_token_env_first e ht, hs]
  · intro t
    simp [requestHeaders]
  · intro e rc out h h0 hnb
    exact get_github_token_cli e rc out h h0 hnb
  · intro e c hH hE hc hnb
    rw [get_github_token_no_cli e hH, get_token_env_none e hE,
      get_token_files_first e c hc hnb]

/-- Witness for C10: `GITHUB_TOKEN="abc123\n"` is returned with its newline
intact. -/
theorem env_token_untrimmed_check :
    get_github_token newlineTokenEnv = .ok (some "abc123\n") :=
  env_token_untrimmed.1 newlineTokenEnv "abc123\n" trivial rfl (by decide)

end FluxStudio
